import Mathlib

/-!
Shallow embedding of the session/attempt orchestration logic of the
ncert-tutor repository, and proofs of the claims of the spec about it.

Sources embedded:
- `src/lib/llm/evaluate.ts` (`evaluateAnswer`, its validation and fallback,
  `getSolutionExplanation` is treated as plain text generation),
- `src/app/api/evaluate` route (`POST`, in particular the `request_solution`
  branch that returns a fixed response shape),
- `src/components/TutorChat.tsx` (`handleSubmit`, `handleShowSolution`,
  the hint counter, the solution button and the two callbacks),
- `src/app/page.tsx` (the `Home` page handlers wiring mastery checks),
- `src/lib/llm/diagnose.ts` (`diagnoseStudent`, its validation and fallback).

External latency (fetch / OpenAI calls) is abstracted as an explicit
argument carrying the resolved outcome of the single call a handler makes;
JSON payloads are records of optional fields, since the TypeScript code
casts parsed JSON without runtime checks and tests fields by truthiness.
-/

namespace NcertTutor

/-- Embedding of `String.prototype.trim`: strip leading and trailing
whitespace (structural recursion over the character list, so that concrete
traces evaluate inside the kernel). -/
def tsTrim (s : String) : String :=
  String.mk (((s.data.dropWhile Char.isWhitespace).reverse.dropWhile
    Char.isWhitespace).reverse)

/-- TypeScript truthiness of an optional string field (`!x` is true when the
field is `undefined` or the empty string). -/
def truthyStr : Option String → Bool
  | none => false
  | some s => !(s == "")

/-- TypeScript truthiness of an optional boolean field (`undefined` is falsy). -/
def truthyBool : Option Bool → Bool
  | none => false
  | some b => b

/-- A parsed evaluation payload as the client and server see it: JSON is cast
(`as EvaluationResponse`) without runtime validation, so every field may be
absent. Mirrors the shape produced in `src/lib/llm/evaluate.ts` and consumed
in `src/components/TutorChat.tsx`. -/
structure RawEval where
  response_ty : Option String
  tutor_message : Option String
  badge_ty : Option String
  show_solution_button : Option Bool
  explanation : Option String
  deriving Repr, DecidableEq

/-- The fixed fallback evaluation returned by `evaluateAnswer` when the model
response is empty, unparseable or fails field validation
(`src/lib/llm/evaluate.ts`, catch branch). -/
def fallbackResponse : RawEval :=
  { response_ty := some "needs_hint"
    tutor_message := some "I\x27m having trouble understanding your answer. Could you explain your thinking step by step?"
    badge_ty := some "hint_given"
    show_solution_button := some false
    explanation := none }

/-- Outcome of the single model call made by `evaluateAnswer`, abstracted:
the call may fail (network / API error), return empty content, return content
that does not parse as JSON, or return a parsed payload. -/
inductive ModelReply
  | apiFailure
  | empty
  | unparseable
  | parsed (r : RawEval)
  deriving Repr, DecidableEq

/-- Validation in `evaluateAnswer`: `!evaluation.response_type ||
!evaluation.tutor_message || !evaluation.badge_type` throws, landing in the
catch branch. -/
def validEval (r : RawEval) : Bool :=
  truthyStr r.response_ty && truthyStr r.tutor_message && truthyStr r.badge_ty

/-- `evaluateAnswer` (`src/lib/llm/evaluate.ts`): a single call, no retry;
every failure path returns the fixed `fallbackResponse`, a validated payload
is returned unchanged. -/
def evaluateAnswer : ModelReply → RawEval
  | .apiFailure => fallbackResponse
  | .empty => fallbackResponse
  | .unparseable => fallbackResponse
  | .parsed r => if validEval r then r else fallbackResponse

/-- The `request_solution` branch of `POST /api/evaluate`
(`src/unnamed/part_003`, lines 51-60): a fixed response shape carrying the
generated explanation text. -/
def solutionRouteResponse (explanation : String) : RawEval :=
  { response_ty := some "correct_final"
    tutor_message := some "Here\x27s how to solve this problem:"
    badge_ty := some "hint_given"
    show_solution_button := some false
    explanation := some explanation }

/-- Role of a chat message (`TutorChat.tsx` uses the literals
`student` / `tutor`). -/
inductive Role
  | student
  | tutor
  deriving Repr, DecidableEq

/-- A rendered chat message; the tutor side optionally carries a badge string
(`ChatMessage` in `TutorChat.tsx`; `id` and `timestamp` are presentation-only
and omitted). -/
structure ChatMessage where
  role : Role
  text : String
  badge_ty : Option String
  deriving Repr, DecidableEq

/-- The `TutorChat` component state: `messages`, `hintsUsed`,
`showSolutionButton` (`TutorChat.tsx`, lines 20-24). -/
structure ChatState where
  messages : List ChatMessage
  hintsUsed : Nat
  showSolutionButton : Bool
  deriving Repr, DecidableEq

/-- Initial `TutorChat` state: no messages, zero hints, no solution button. -/
def initialChatState : ChatState :=
  { messages := [], hintsUsed := 0, showSolutionButton := false }

/-- The callback invocations a submit turn can emit
(`onCorrectAnswer` / `onMasteryFailed` props of `TutorChat`). -/
structure SubmitEffects where
  firedCorrectAnswer : Bool
  firedMasteryFailed : Bool
  deriving Repr, DecidableEq

/-- No callback fired. -/
def noEffects : SubmitEffects :=
  { firedCorrectAnswer := false, firedMasteryFailed := false }

/-- Success path of `handleSubmit` (`TutorChat.tsx`, lines 39-96) once the
fetch resolved with a JSON body `r`: append the student turn and the tutor
turn (badge copied from the payload), increment `hintsUsed` exactly when
`badge_type` equals `hint_given`, latch `showSolutionButton` when the flag of the payload is truthy, fire `onMasteryFailed` when that flag is truthy in a mastery
check, fire `onCorrectAnswer` when `response_type` equals `correct_final`. -/
def evalTurn (isMasteryCheck : Bool) (s : ChatState) (input : String) (r : RawEval) :
    ChatState × SubmitEffects :=
  ({ messages := s.messages ++
      [{ role := .student, text := tsTrim input, badge_ty := none },
       { role := .tutor, text := r.tutor_message.getD "", badge_ty := r.badge_ty }]
     hintsUsed := if r.badge_ty = some "hint_given" then s.hintsUsed + 1 else s.hintsUsed
     showSolutionButton := if truthyBool r.show_solution_button then true else s.showSolutionButton },
   { firedCorrectAnswer := r.response_ty = some "correct_final"
     firedMasteryFailed := truthyBool r.show_solution_button && isMasteryCheck })

/-- Error path of `handleSubmit` (`TutorChat.tsx`, catch branch, lines
98-106): the student turn was already appended, a fixed badge-less apology
turn is appended, nothing else changes and no callback fires. -/
def errorTurn (s : ChatState) (input : String) : ChatState × SubmitEffects :=
  ({ s with messages := s.messages ++
      [{ role := .student, text := tsTrim input, badge_ty := none },
       { role := .tutor,
         text := "Sorry, I had trouble understanding that. Could you try again?",
         badge_ty := none }] },
   noEffects)

/-- The concurrency error of the spec (§7 error taxonomy). No value of this type
is ever produced by the code under `src/`. -/
inductive SubmitError
  | concurrentSubmission
  deriving Repr, DecidableEq

/-- Observable outcome of one `handleSubmit` invocation. `ignored` is the
early return (`if (!input.trim() || isLoading) return`), which starts no
evaluation call; `rejected` is modelled from the error taxonomy of the spec and is
never constructed by the code; `completed` carries the committed state and
the fired callbacks. -/
inductive SubmitOutcome
  | ignored
  | rejected (e : SubmitError)
  | completed (s : ChatState) (eff : SubmitEffects)
  deriving Repr, DecidableEq

/-- `handleSubmit` (`TutorChat.tsx`, lines 35-110). `fetchResult` is the
resolved outcome of the single fetch this call makes: `none` covers a network
failure, a non-ok status or an unparseable body (all reach the catch branch);
`some r` is the parsed JSON of an ok response. -/
def handleSubmit (isLoading isMasteryCheck : Bool) (input : String) (s : ChatState)
    (fetchResult : Option RawEval) : SubmitOutcome :=
  if tsTrim input == "" || isLoading then .ignored
  else
    match fetchResult with
    | some r => .completed (evalTurn isMasteryCheck s input r).1 (evalTurn isMasteryCheck s input r).2
    | none => .completed (errorTurn s input).1 (errorTurn s input).2

/-- `handleShowSolution` (`TutorChat.tsx`, lines 112-145): on a parsed
response it appends one badge-less tutor turn whose text is
`result.explanation || result.tutor_message`, clears `showSolutionButton`,
touches neither `hintsUsed` nor the existing messages and fires no callback;
on a failed call (catch branch) it changes nothing. -/
def handleShowSolution (s : ChatState) (apiResult : Option RawEval) :
    ChatState × SubmitEffects :=
  match apiResult with
  | some r =>
      ({ messages := s.messages ++
          [{ role := .tutor,
             text := if truthyStr r.explanation then r.explanation.getD ""
                     else r.tutor_message.getD ""
             badge_ty := none }]
         hintsUsed := s.hintsUsed
         showSolutionButton := false },
       noEffects)
  | none => (s, noEffects)

/-- A parsed diagnostic payload (`DiagnosticResult` in
`src/lib/llm/diagnose.ts`), again with every field optional because the JSON
is cast without runtime checks. -/
structure RawDiagnostic where
  misconception_ty : Option String
  confidence : Option String
  description : Option String
  evidence : Option (List String)
  recommendations : Option (List String)
  prerequisite_concepts : Option (List String)
  deriving Repr, DecidableEq

/-- Outcome of the single model call made by `diagnoseStudent`. -/
inductive DiagReply
  | apiFailure
  | empty
  | unparseable
  | parsed (r : RawDiagnostic)
  deriving Repr, DecidableEq

/-- Validation in `diagnoseStudent`: `!diagnostic.misconception_type ||
!diagnostic.confidence || !diagnostic.description` throws into the catch
branch. -/
def validDiagnostic (r : RawDiagnostic) : Bool :=
  truthyStr r.misconception_ty && truthyStr r.confidence && truthyStr r.description

/-- The fixed fallback diagnostic (`src/lib/llm/diagnose.ts`, catch branch):
`none` misconception, `low` confidence, one generic evidence item and a
generic pair of recommendations. -/
def fallbackDiagnostic : RawDiagnostic :=
  { misconception_ty := some "none"
    confidence := some "low"
    description := some "Unable to determine specific misconception from available data."
    evidence := some ["Insufficient data for analysis"]
    recommendations := some
      ["Continue working with the student to gather more information",
       "Provide additional practice problems to identify patterns"]
    prerequisite_concepts := none }

/-- `diagnoseStudent` (`src/lib/llm/diagnose.ts`): total over every call
outcome; every failure path returns the fixed `fallbackDiagnostic`, a
validated payload is returned unchanged. -/
def diagnoseStudent : DiagReply → RawDiagnostic
  | .apiFailure => fallbackDiagnostic
  | .empty => fallbackDiagnostic
  | .unparseable => fallbackDiagnostic
  | .parsed r => if validDiagnostic r then r else fallbackDiagnostic

/-- One learner-visible action on a live chat. A `diagnose` action stands for
a call of `POST /api/diagnose`: per `src/unnamed/part_006` and the diagnose
route, that path computes a `DiagnosticResult` from a copy of the request
data and contains no write to the chat component state. -/
inductive ChatEvent
  | submit (input : String) (fetchResult : Option RawEval)
  | showSolution (apiResult : Option RawEval)
  | diagnose (reply : DiagReply)
  deriving Repr, DecidableEq

/-- State transition of the chat component for one event. Submits run with
`isLoading = false` (the previous call has been awaited); the diagnose path
leaves the state unchanged, matching the absence of any state mutation in
`diagnoseStudent` and its route. -/
def chatStep (isMasteryCheck : Bool) (s : ChatState) : ChatEvent → ChatState
  | .submit input fetchResult =>
      match handleSubmit false isMasteryCheck input s fetchResult with
      | .completed s2 _ => s2
      | _ => s
  | .showSolution apiResult => (handleShowSolution s apiResult).1
  | .diagnose _ => s

/-- Run a list of chat events from a state. -/
def runChat (isMasteryCheck : Bool) : ChatState → List ChatEvent → ChatState
  | s, [] => s
  | s, e :: es => runChat isMasteryCheck (chatStep isMasteryCheck s e) es

/-- A problem as the page logic needs it (display metadata omitted;
`src/app/page.tsx` threads problems through `currentProblem` /
`originalProblem` without inspecting them). -/
structure Problem where
  id : String
  text : String
  deriving Repr, DecidableEq

/-- The `Home` page state (`src/app/page.tsx`, lines 15-22). -/
structure PageState where
  currentProblem : Option Problem
  originalProblem : Option Problem
  isMasteryCheck : Bool
  showMasteryCheckModal : Bool
  showCelebrationModal : Bool
  celebrationKind : String
  deriving Repr, DecidableEq

/-- Initial `Home` state. -/
def initPage : PageState :=
  { currentProblem := none, originalProblem := none, isMasteryCheck := false
    showMasteryCheckModal := false, showCelebrationModal := false
    celebrationKind := "mastery_passed" }

/-- Externally observable side effects of one page event: whether a
`/api/generate-similar` call was started, and whether any error was surfaced
to the learner (the page has no error UI state; failures only reach
`console.error`). -/
structure PageEffects where
  genCallStarted : Bool
  errorSurfacedToLearner : Bool
  deriving Repr, DecidableEq

/-- No page-level side effect. -/
def noPageEffects : PageEffects :=
  { genCallStarted := false, errorSurfacedToLearner := false }

/-- `handleProblemSelected` (`page.tsx`, lines 24-30). -/
def handleProblemSelected (s : PageState) (p : Problem) : PageState :=
  { s with currentProblem := some p, originalProblem := none
           isMasteryCheck := false, showMasteryCheckModal := false
           showCelebrationModal := false }

/-- `handleOriginalCorrectAnswer` (`page.tsx`, lines 32-35): solving the
original problem opens the mastery-check offer modal. -/
def handleOriginalCorrectAnswer (s : PageState) : PageState :=
  { s with showMasteryCheckModal := true }

/-- `handleStartMasteryCheck` (`page.tsx`, lines 37-77). `gen` is the
resolved outcome of the generation call: `none` for a network failure or
non-ok status, `some ps` for the parsed `problems` array. A non-empty array
starts the mastery attempt on its first element; an empty array and a failed
call both land in the catch branch, which only resets `currentProblem`. -/
def handleStartMasteryCheck (s : PageState) (gen : Option (List Problem)) : PageState :=
  let s1 := { s with showMasteryCheckModal := false }
  match gen with
  | some (p :: _) =>
      { s1 with originalProblem := s1.currentProblem, currentProblem := some p
                isMasteryCheck := true }
  | _ => { s1 with currentProblem := none }

/-- `handleSkipMasteryCheck` (`page.tsx`, lines 79-84). -/
def handleSkipMasteryCheck (s : PageState) : PageState :=
  { s with showMasteryCheckModal := false, currentProblem := none
           originalProblem := none }

/-- `handleMasteryCorrectAnswer` (`page.tsx`, lines 86-90). -/
def handleMasteryCorrectAnswer (s : PageState) : PageState :=
  { s with celebrationKind := "mastery_passed", showCelebrationModal := true }

/-- `handleMasteryFailed` (`page.tsx`, lines 92-96). -/
def handleMasteryFailed (s : PageState) : PageState :=
  { s with celebrationKind := "mastery_failed", showCelebrationModal := true }

/-- `handleCelebrationContinue` (`page.tsx`, lines 98-104). -/
def handleCelebrationContinue (s : PageState) : PageState :=
  { s with showCelebrationModal := false, currentProblem := none
           originalProblem := none, isMasteryCheck := false }

/-- `handleTryAnother` (`page.tsx`, lines 106-112). -/
def handleTryAnother (s : PageState) : PageState :=
  { s with currentProblem := none, originalProblem := none
           isMasteryCheck := false, showMasteryCheckModal := false
           showCelebrationModal := false }

/-- Page-level events. `chatCorrectAnswer` is the `onCorrectAnswer` callback
fired by `TutorChat` on a `correct_final` evaluation;
`chatMasteryFailedSignal` is its `onMasteryFailed` callback. The two modal
button events only have an effect while their modal is rendered
(`MasteryCheckModal` returns `null` when not open). -/
inductive PageEvent
  | problemSelected (p : Problem)
  | chatCorrectAnswer
  | chatMasteryFailedSignal
  | startMasteryCheck (gen : Option (List Problem))
  | skipMasteryCheck
  | celebrationContinue
  | tryAnother
  deriving Repr, DecidableEq

/-- One page transition. The dispatch on `chatCorrectAnswer` mirrors
`page.tsx`, line 183: `onCorrectAnswer = isMasteryCheck ?
handleMasteryCorrectAnswer : handleOriginalCorrectAnswer`. A
`startMasteryCheck` event with the modal open starts exactly one generation
call; no handler surfaces an error to the learner (failures only reach
`console.error`). -/
def pageStep (s : PageState) : PageEvent → PageState × PageEffects
  | .problemSelected p => (handleProblemSelected s p, noPageEffects)
  | .chatCorrectAnswer =>
      if s.isMasteryCheck then (handleMasteryCorrectAnswer s, noPageEffects)
      else (handleOriginalCorrectAnswer s, noPageEffects)
  | .chatMasteryFailedSignal => (handleMasteryFailed s, noPageEffects)
  | .startMasteryCheck gen =>
      if s.showMasteryCheckModal then
        (handleStartMasteryCheck s gen,
         { genCallStarted := true, errorSurfacedToLearner := false })
      else (s, noPageEffects)
  | .skipMasteryCheck =>
      if s.showMasteryCheckModal then (handleSkipMasteryCheck s, noPageEffects)
      else (s, noPageEffects)
  | .celebrationContinue => (handleCelebrationContinue s, noPageEffects)
  | .tryAnother => (handleTryAnother s, noPageEffects)

/-- States of the page reachable from the initial state by page events. -/
inductive Reachable : PageState → Prop
  | init : Reachable initPage
  | step (s : PageState) (e : PageEvent) : Reachable s → Reachable (pageStep s e).1

/-- Modelled from the spec: the persisted `final_status` of the original
attempt. No code under `src/` writes an attempt record (persistence is an
external collaborator); per §4.4 (2) a generation failure after an original
`Solved` finalizes the original attempt as `mastered`, while a successful
generation leaves the status pending on the outcome of the mastery attempt. -/
def originalFinalStatus (gen : Option (List Problem)) : Option String :=
  match gen with
  | some (_ :: _) => none
  | _ => some "mastered"

/-- Four consecutive submissions each answered by the deterministic fallback
(for example, four malformed model responses in a row). -/
def hintTrace : List ChatEvent :=
  List.replicate 4 (.submit "I am stuck" (some fallbackResponse))

/-- A gateway payload that signals the solution gate on a turn that carries
no hint badge. Nothing in the code prevents this payload: the JSON is cast
without validating `show_solution_button` against the hint count. -/
def offerWithoutHints : RawEval :=
  { response_ty := some "conceptual_error"
    tutor_message := some "Think about what the question is asking."
    badge_ty := some "corrective_feedback"
    show_solution_button := some true
    explanation := none }

/-- A gateway payload opening the solution gate on a hint turn (the shape the
prompt requests once `hints = 3`). -/
def gateOpeningEval : RawEval :=
  { response_ty := some "needs_hint"
    tutor_message := some "Try drawing a picture."
    badge_ty := some "hint_given"
    show_solution_button := some true
    explanation := none }

/-- A canonical repository problem. -/
def sampleProblem : Problem :=
  { id := "problem_00001", text := "What is 2 + 3?" }

/-- A generated sibling problem. -/
def generatedProblem : Problem :=
  { id := "generated_1", text := "What is 4 + 5?" }

/-- Page state after the learner solves the original problem: the
mastery-check offer modal is open. -/
def offerState : PageState :=
  (pageStep (pageStep initPage (.problemSelected sampleProblem)).1 .chatCorrectAnswer).1

/-- Page state inside a mastery-check attempt (offer accepted, generation
succeeded). -/
def masteryState : PageState :=
  (pageStep offerState (.startMasteryCheck (some [generatedProblem]))).1

/-- The page never shows the mastery-offer modal during a mastery attempt:
one-step preservation. -/
theorem pageStep_preserves_inv (s : PageState) (e : PageEvent)
    (h : (!s.showMasteryCheckModal || !s.isMasteryCheck) = true) :
    (!(pageStep s e).1.showMasteryCheckModal || !(pageStep s e).1.isMasteryCheck) = true := by
  cases e <;>
    simp only [pageStep, handleProblemSelected, handleOriginalCorrectAnswer,
      handleStartMasteryCheck, handleSkipMasteryCheck, handleMasteryCorrectAnswer,
      handleMasteryFailed, handleCelebrationContinue, handleTryAnother] <;>
    (try split) <;> (try split) <;> simp_all

/-- The modal/mastery exclusion holds in every reachable page state. -/
theorem reachable_inv {s : PageState} (h : Reachable s) :
    (!s.showMasteryCheckModal || !s.isMasteryCheck) = true := by
  induction h with
  | init => rfl
  | step s e hprev ih => exact pageStep_preserves_inv s e ih

/-- C1: the claim says a `hint_given` turn arriving at count 3 is a
saturating no-op. The code (`TutorChat.tsx`, lines 79-81) increments
unconditionally: after three fallback-answered turns the counter is 3, and a
fourth `hint_given` turn pushes it to 4, past the claimed ceiling. -/
theorem hint_counter_exceeds_ceiling :
    (runChat false initialChatState (List.take 3 hintTrace)).hintsUsed = 3 ∧
      (runChat false initialChatState hintTrace).hintsUsed = 4 := by decide

/-- C2 counterexample: the solution offer is not equivalent to `count = 3` —
a gateway payload with `show_solution_button` true and no hint badge opens
the offer at count 0, and four hint-badged turns drive the count to 4, not
`min 4 3`. -/
theorem solution_offer_not_tied_to_count_cex :
    (evalTurn false initialChatState "7" offerWithoutHints).1.showSolutionButton = true ∧
      (evalTurn false initialChatState "7" offerWithoutHints).1.hintsUsed = 0 ∧
      (runChat false initialChatState hintTrace).hintsUsed ≠ min 4 3 := by decide

/-- C2 amended: the solution offer is latched from the `show_solution_button`
flag of the gateway (not derived from the hint count), the counter
adds exactly the number of `hint_given` badges with no cap, and the error
turn never clears the offer. -/
theorem solution_offer_gateway_latched (m : Bool) (s : ChatState) (input : String)
    (r : RawEval) :
    (evalTurn m s input r).1.showSolutionButton
        = (truthyBool r.show_solution_button || s.showSolutionButton) ∧
      (evalTurn m s input r).1.hintsUsed
        = s.hintsUsed + (if r.badge_ty = some "hint_given" then 1 else 0) ∧
      (errorTurn s input).1.showSolutionButton = s.showSolutionButton := by
  refine ⟨?_, ?_, rfl⟩
  · cases h : truthyBool r.show_solution_button <;> simp [evalTurn, h]
  · by_cases h : r.badge_ty = some "hint_given" <;> simp [evalTurn, h]

/-- C3 counterexample: in a mastery attempt the `onMasteryFailed`
classification fires on the evaluated turn that merely opens the gate (no
solution was requested), while the solution-request operation itself fires
no classification at all. -/
theorem mastery_failed_on_gate_open_cex :
    (evalTurn true initialChatState "idk" gateOpeningEval).2.firedMasteryFailed = true ∧
      (handleShowSolution initialChatState
          (some (solutionRouteResponse "Add the tens first."))).2 = noEffects := by decide

/-- C3 amended: `mastery_passed` fires exactly on a `correct_final`
evaluation, but `mastery_failed` fires exactly when an evaluated turn signals
`show_solution_button` during a mastery attempt — the gate opening, not the
solution request of the learner; `handleShowSolution` fires no callback, and the
page maps the two signals to the two celebration kinds. -/
theorem mastery_classification_amended (m : Bool) (s : ChatState) (input : String)
    (r : RawEval) (apiResult : Option RawEval) (ps : PageState) :
    (evalTurn m s input r).2.firedMasteryFailed
        = (truthyBool r.show_solution_button && m) ∧
      ((evalTurn m s input r).2.firedCorrectAnswer = true ↔
        r.response_ty = some "correct_final") ∧
      (handleShowSolution s apiResult).2 = noEffects ∧
      (pageStep ps .chatMasteryFailedSignal).1.celebrationKind = "mastery_failed" ∧
      (pageStep { ps with isMasteryCheck := true } .chatCorrectAnswer).1.celebrationKind
        = "mastery_passed" := by
  refine ⟨rfl, by simp [evalTurn], ?_, rfl, ?_⟩
  · cases apiResult <;> rfl
  · simp [pageStep, handleMasteryCorrectAnswer]

/-- C4: on a failed or empty generation result, the mastery flow aborts —
the learner is returned to the picker with no mastery attempt created and no
error surfaced; the final status of the original attempt (spec-modelled, since no
persistence code exists under `src/`) is `mastered`. -/
theorem generation_failure_fail_open (s : PageState) (gen : Option (List Problem))
    (hmodal : s.showMasteryCheckModal = true) (hfail : gen = none ∨ gen = some []) :
    (pageStep s (.startMasteryCheck gen)).1.currentProblem = none ∧
      (pageStep s (.startMasteryCheck gen)).1.isMasteryCheck = s.isMasteryCheck ∧
      (pageStep s (.startMasteryCheck gen)).2.errorSurfacedToLearner = false ∧
      originalFinalStatus gen = some "mastered" := by
  rcases hfail with h | h <;> subst h <;>
    simp [pageStep, hmodal, handleStartMasteryCheck, originalFinalStatus]

/-- C4 witness: the offer state with a failed generation call. -/
theorem generation_failure_fail_open_witness :
    offerState.showMasteryCheckModal = true ∧
      (pageStep offerState (.startMasteryCheck none)).1.currentProblem = none ∧
      (pageStep offerState (.startMasteryCheck none)).1.isMasteryCheck
        = offerState.isMasteryCheck ∧
      (pageStep offerState (.startMasteryCheck none)).2.errorSurfacedToLearner = false ∧
      originalFinalStatus none = some "mastered" :=
  ⟨by decide, generation_failure_fail_open offerState none (by decide) (Or.inl rfl)⟩

/-- C5: every malformed model response — empty, unparseable, or missing one
of the three required fields — yields the single fixed fallback
(`needs_hint` / `hint_given`, no throw, no retry), and consuming that
fallback increments the hint counter by exactly one in the same turn. -/
theorem malformed_evaluation_fallback (reply : ModelReply)
    (h : reply = .empty ∨ reply = .unparseable ∨
      ∃ r, reply = .parsed r ∧ validEval r = false) :
    evaluateAnswer reply = fallbackResponse ∧
      fallbackResponse.response_ty = some "needs_hint" ∧
      fallbackResponse.badge_ty = some "hint_given" ∧
      ∀ (m : Bool) (s : ChatState) (input : String),
        (evalTurn m s input (evaluateAnswer reply)).1.hintsUsed = s.hintsUsed + 1 := by
  have hfb : evaluateAnswer reply = fallbackResponse := by
    rcases h with h | h | ⟨r, hr, hv⟩
    · subst h; rfl
    · subst h; rfl
    · subst hr; simp [evaluateAnswer, hv]
  refine ⟨hfb, rfl, rfl, ?_⟩
  intro m s input
  rw [hfb]
  simp [evalTurn, fallbackResponse]

/-- C5 witness: the empty-response case, consumed at the initial state. -/
theorem malformed_evaluation_fallback_witness :
    evaluateAnswer .empty = fallbackResponse ∧
      (evalTurn false initialChatState "x" (evaluateAnswer .empty)).1.hintsUsed
        = initialChatState.hintsUsed + 1 := by
  have h := malformed_evaluation_fallback .empty (Or.inl rfl)
  exact ⟨h.1, h.2.2.2 false initialChatState "x"⟩

/-- C6: in every reachable page state inside a mastery attempt, no event can
start a sibling-problem generation call, and a `correct_final` signal leaves
the mastery-offer modal closed — mastery recursion depth is 1. -/
theorem mastery_never_spawns_mastery (s : PageState) (hr : Reachable s)
    (hm : s.isMasteryCheck = true) :
    (∀ e, (pageStep s e).2.genCallStarted = false) ∧
      (pageStep s .chatCorrectAnswer).1.showMasteryCheckModal = false := by
  have hinv := reachable_inv hr
  rw [hm] at hinv
  have hmodal : s.showMasteryCheckModal = false := by
    cases h : s.showMasteryCheckModal
    · rfl
    · rw [h] at hinv; simp at hinv
  constructor
  · intro e
    cases e <;> simp [pageStep, hmodal, hm, noPageEffects]
  · simp [pageStep, hm, handleMasteryCorrectAnswer, hmodal]

/-- C6 witness: a concrete reachable mastery state — correct answer and
gate-open events spawn no generation call and open no offer modal. -/
theorem mastery_never_spawns_mastery_witness :
    (pageStep masteryState (.startMasteryCheck (some [generatedProblem]))).2.genCallStarted
        = false ∧
      (pageStep masteryState .chatCorrectAnswer).1.showMasteryCheckModal = false := by
  have hr : Reachable masteryState :=
    Reachable.step offerState (.startMasteryCheck (some [generatedProblem]))
      (Reachable.step (pageStep initPage (.problemSelected sampleProblem)).1 .chatCorrectAnswer
        (Reachable.step initPage (.problemSelected sampleProblem) Reachable.init))
  have h := mastery_never_spawns_mastery masteryState hr (by decide)
  exact ⟨h.1 _, h.2⟩

/-- C7: on an evaluated turn the counter increments exactly when the appended
tutor turn carries the `hint_given` badge (the badge of the turn is the badge of the payload), and the error turn appends a badge-less tutor turn and never
increments. -/
theorem hint_increment_iff_badge (m : Bool) (s : ChatState) (input : String)
    (r : RawEval) :
    ((evalTurn m s input r).1.hintsUsed = s.hintsUsed + 1 ↔
        r.badge_ty = some "hint_given") ∧
      (evalTurn m s input r).1.messages
        = s.messages ++ [⟨.student, tsTrim input, none⟩,
            ⟨.tutor, r.tutor_message.getD "", r.badge_ty⟩] ∧
      (errorTurn s input).1.hintsUsed = s.hintsUsed ∧
      (errorTurn s input).1.messages
        = s.messages ++ [⟨.student, tsTrim input, none⟩,
            ⟨.tutor, "Sorry, I had trouble understanding that. Could you try again?",
              none⟩] := by
  refine ⟨?_, rfl, rfl, rfl⟩
  by_cases hb : r.badge_ty = some "hint_given"
  · simp [evalTurn, hb]
  · simp [evalTurn, hb]

/-- C8 counterexample: a submission while a call is in flight is silently
ignored — the outcome is the early return, not a rejection carrying the
`ConcurrentSubmission` error of the spec. -/
theorem concurrent_submission_silent_cex :
    handleSubmit true false "42" initialChatState (some fallbackResponse)
        = SubmitOutcome.ignored ∧
      SubmitOutcome.ignored ≠ SubmitOutcome.rejected .concurrentSubmission := by decide

/-- C8 amended: while an evaluation is in flight every further submission is
silently ignored (the handler returns early, starting no second evaluation
call and producing no error value). -/
theorem concurrent_submission_ignored (m : Bool) (input : String) (s : ChatState)
    (fetchResult : Option RawEval) :
    handleSubmit true m input s fetchResult = SubmitOutcome.ignored := by
  simp [handleSubmit]

/-- C9: every failed diagnostic call — API failure, empty, unparseable or
invalid payload — returns the fixed low-confidence `none` fallback with its
generic recommendation pair, and a diagnose action never changes the chat
state (hint counter, conversation, solution gate). -/
theorem diagnostic_fallback_and_readonly (reply : DiagReply)
    (h : reply = .apiFailure ∨ reply = .empty ∨ reply = .unparseable ∨
      ∃ r, reply = .parsed r ∧ validDiagnostic r = false) :
    diagnoseStudent reply = fallbackDiagnostic ∧
      fallbackDiagnostic.misconception_ty = some "none" ∧
      fallbackDiagnostic.confidence = some "low" ∧
      fallbackDiagnostic.recommendations = some
        ["Continue working with the student to gather more information",
         "Provide additional practice problems to identify patterns"] ∧
      ∀ (m : Bool) (s : ChatState) (r2 : DiagReply),
        chatStep m s (.diagnose r2) = s := by
  have hfb : diagnoseStudent reply = fallbackDiagnostic := by
    rcases h with h | h | h | ⟨r, hr, hv⟩
    · subst h; rfl
    · subst h; rfl
    · subst h; rfl
    · subst hr; simp [diagnoseStudent, hv]
  exact ⟨hfb, rfl, rfl, rfl, fun _ _ _ => rfl⟩

/-- C9 witness: the API-failure case, invoked on the initial chat state. -/
theorem diagnostic_fallback_and_readonly_witness :
    diagnoseStudent .apiFailure = fallbackDiagnostic ∧
      chatStep false initialChatState (.diagnose .apiFailure) = initialChatState := by
  have h := diagnostic_fallback_and_readonly .apiFailure (Or.inl rfl)
  exact ⟨h.1, h.2.2.2.2 false initialChatState .apiFailure⟩

/-- C10: in every chat state, a solution request answered by the solution
route appends exactly one badge-less tutor turn (the explanation text, or the
fixed header when the explanation is empty), clears the offer flag, and
leaves the hint counter, the prior messages and the callbacks untouched —
although the payload of the route carries `correct_final` and `hint_given`. -/
theorem show_solution_frame (s : ChatState) (explanation : String) :
    handleShowSolution s (some (solutionRouteResponse explanation))
        = ({ messages := s.messages ++
              [⟨.tutor,
                if explanation = "" then "Here\x27s how to solve this problem:"
                else explanation, none⟩]
             hintsUsed := s.hintsUsed
             showSolutionButton := false }, noEffects) ∧
      (solutionRouteResponse explanation).response_ty = some "correct_final" ∧
      (solutionRouteResponse explanation).badge_ty = some "hint_given" := by
  refine ⟨?_, rfl, rfl⟩
  by_cases he : explanation = ""
  · subst he; rfl
  · simp [handleShowSolution, solutionRouteResponse, truthyStr, he]

end NcertTutor
